import Mathlib

/-!
Shallow embedding of `express-request-schema-validator` (src/index.ts).

The repository exports a single factory `createMiddleware` that takes up to
three optional JSON Schemas (`bodySchema`, `querySchema`, `headersSchema`),
compiles each present (truthy) schema with AJV at factory time, and returns a
request handler.  The handler checks the request body, then the query, then
the headers, responding 400 with a structured payload at the first failing
part and otherwise calling `next()`.

Modelling decisions, all taken from the source:
* JSON documents (request parts and schemas alike) are a `JValue` inductive;
  AJV allows boolean schemas, so a schema is just a `JValue`.
* The JavaScript truthiness test `bodySchema ? ajv.compile(bodySchema) : null`
  is modelled by `jsTruthy` on the optional schema value.
* The AJV engine itself is an external dependency and out of scope; a compiled
  validator is modelled, as the spec's data model states, as a pure function
  from a candidate value to a validity flag plus an ordered error list.
  `ajv.compile` is a parameter `c : Schema → Except String ValidateFunction`
  whose `Except.error` models the compilation throw.
* AJV's mutable `validate.errors` slot (written by each call, read by the
  middleware right after the call) is modelled by explicit state threading
  through `ErrSlots`: each stage writes its slot and the 400 payload reads it.
* `res.status(400).json(p)` and `next()` become `Effect`s collected in a list,
  so double responses or a response plus `next()` would be observable.
* The handler never assigns to `req`, so each branch of the translation
  returns the incoming request unchanged; the request carries an arbitrary
  `rest` field for everything the handler does not read (params, cookies,
  method, url, ...).
-/

/-- JSON-like values: request bodies, query objects, header objects and
JSON Schema documents. Numbers are integers here; no claim depends on
numeric fineness. -/
inductive JValue where
  | null : JValue
  | bool (b : Bool) : JValue
  | num (n : Int) : JValue
  | str (s : String) : JValue
  | arr (xs : List JValue) : JValue
  | obj (fields : List (String × JValue)) : JValue

/-- AJV's `Schema` type admits both schema objects and boolean schemas, so a
schema is any JSON value. -/
abbrev Schema := JValue

/-- JavaScript truthiness of a JSON value, used by the source's
`bodySchema ? ajv.compile(bodySchema) : null` tests. -/
def jsTruthy : JValue → Bool
  | JValue.null => false
  | JValue.bool b => b
  | JValue.num n => n != 0
  | JValue.str s => s != ""
  | JValue.arr _ => true
  | JValue.obj _ => true

/-- Rule-specific parameters of an AJV `ErrorObject.params`.  Only
`missingProperty` is inspected by the middleware; the other entries are
carried opaquely as key/value pairs and echoed verbatim. -/
structure ErrParams where
  missingProperty : Option String
  rest : List (String × String)
deriving Repr, DecidableEq

/-- An AJV `ErrorObject` as consumed by the middleware: `instancePath`,
`message`, `keyword` and `params`. -/
structure ErrorObject where
  instancePath : String
  message : String
  keyword : String
  params : ErrParams
deriving Repr, DecidableEq

/-- Result of running a compiled validator on a candidate value: the boolean
return of `validate(data)` plus the error list the call stores in
`validate.errors` (empty standing for AJV's `null` on success). -/
structure ValidationResult where
  valid : Bool
  errors : List ErrorObject

/-- A compiled AJV validator: per the spec's data model, a pure function from
a candidate value to (valid, ordered errors). -/
def ValidateFunction := JValue → ValidationResult

/-- The factory's option object: three optional schemas. `none` models an
absent (`undefined`) option. -/
structure ValidationSchemas where
  bodySchema : Option Schema
  querySchema : Option Schema
  headersSchema : Option Schema

/-- The closure state captured by the returned handler: the three compiled
validators (null when the schema was absent or falsy) and the original
schema values, echoed in failure payloads. -/
structure Gate where
  validateBody : Option ValidateFunction
  validateQuery : Option ValidateFunction
  validateHeaders : Option ValidateFunction
  bodySchema : Option Schema
  querySchema : Option Schema
  headersSchema : Option Schema

/-- One schema option of the factory: `sch ? ajv.compile(sch) : null`, with
compilation errors propagating out of the factory. -/
def compilePart (c : Schema → Except String ValidateFunction) :
    Option Schema → Except String (Option ValidateFunction)
  | none => Except.ok none
  | some sch =>
      if jsTruthy sch then (c sch).map some else Except.ok none

/-- The factory `createMiddleware`: eagerly compiles the body, query and
headers schemas in that order (the first compilation throw aborts the call)
and packages the compiled validators together with the original schemas. -/
def createMiddleware (c : Schema → Except String ValidateFunction)
    (s : ValidationSchemas) : Except String Gate := do
  let validateBody ← compilePart c s.bodySchema
  let validateQuery ← compilePart c s.querySchema
  let validateHeaders ← compilePart c s.headersSchema
  pure { validateBody := validateBody
         validateQuery := validateQuery
         validateHeaders := validateHeaders
         bodySchema := s.bodySchema
         querySchema := s.querySchema
         headersSchema := s.headersSchema }

/-- One entry of the 400 payload's `details` array. -/
structure Detail where
  field : String
  message : String
  keyword : String
  params : ErrParams
deriving Repr, DecidableEq

/-- The `field` of a detail:
`err.instancePath || err.params?.missingProperty || "root"`, with JavaScript
string truthiness (an empty string is falsy, an absent property is falsy). -/
def fieldOf (e : ErrorObject) : String :=
  if e.instancePath ≠ "" then e.instancePath
  else
    match e.params.missingProperty with
    | some p => if p ≠ "" then p else "root"
    | none => "root"

/-- The finding the middleware emits for one raw engine error:
`{ field, message, keyword, params }`. -/
def detailOf (e : ErrorObject) : Detail :=
  { field := fieldOf e
    message := e.message
    keyword := e.keyword
    params := e.params }

/-- The JSON payload of a 400 response:
`{ error, schema, details }` with the schema echoed verbatim. -/
structure ErrorResponse where
  error : String
  schema : Option Schema
  details : List Detail

/-- Observable handler effects: `res.status(s).json(p)` and `next()`. -/
inductive Effect where
  | respond (status : Nat) (payload : ErrorResponse) : Effect
  | callNext : Effect

/-- An incoming request. The handler reads only `body`, `query` and
`headers`; `rest` stands for every other request field (params, cookies,
method, url, ...), of arbitrary type. -/
structure Request (α : Type) where
  body : JValue
  query : JValue
  headers : JValue
  rest : α

/-- The mutable `validate.errors` slots of the three compiled validators:
each call of a validator overwrites its slot, and the middleware reads the
slot when building the 400 payload. -/
structure ErrSlots where
  bodyErrors : List ErrorObject
  queryErrors : List ErrorObject
  headersErrors : List ErrorObject

/-- Builds the 400 payload for one part: fixed message, the original schema
echoed, and one detail per engine error, in the engine's order. -/
def failPayload (msg : String) (sch : Option Schema)
    (errs : List ErrorObject) : ErrorResponse :=
  { error := msg, schema := sch, details := errs.map detailOf }

/-- Third stage of the handler (reached when body and query passed): the
`if (validateHeaders) { ... }` block followed by `next()`. -/
def headersStage {α : Type} (g : Gate) (req : Request α) (s : ErrSlots) :
    (Request α × List Effect) × ErrSlots :=
  match g.validateHeaders with
  | some v =>
      let r := v req.headers
      let s1 := { s with headersErrors := r.errors }
      if r.valid = false then
        ((req, [Effect.respond 400
          (failPayload "Headers validation failed" g.headersSchema s1.headersErrors)]), s1)
      else ((req, [Effect.callNext]), s1)
  | none => ((req, [Effect.callNext]), s)

/-- Second stage of the handler (reached when the body passed): the
`if (validateQuery) { ... }` block, falling through to the headers stage. -/
def queryStage {α : Type} (g : Gate) (req : Request α) (s : ErrSlots) :
    (Request α × List Effect) × ErrSlots :=
  match g.validateQuery with
  | some v =>
      let r := v req.query
      let s1 := { s with queryErrors := r.errors }
      if r.valid = false then
        ((req, [Effect.respond 400
          (failPayload "Query parameters validation failed" g.querySchema s1.queryErrors)]), s1)
      else headersStage g req s1
  | none => headersStage g req s

/-- The returned request handler: the `if (validateBody) { ... }` block,
falling through to the query and headers stages.  Returns the (untouched)
request, the emitted actions, and the final validator-error slots. -/
def handleS {α : Type} (g : Gate) (req : Request α) (s : ErrSlots) :
    (Request α × List Effect) × ErrSlots :=
  match g.validateBody with
  | some v =>
      let r := v req.body
      let s1 := { s with bodyErrors := r.errors }
      if r.valid = false then
        ((req, [Effect.respond 400
          (failPayload "Request body validation failed" g.bodySchema s1.bodyErrors)]), s1)
      else queryStage g req s1
  | none => queryStage g req s

/-- A configured part accepts its value: either no validator is configured
for the part, or the configured validator returns `valid`. -/
def partPasses (ov : Option ValidateFunction) (x : JValue) : Prop :=
  ∀ v, ov = some v → (v x).valid = true

/-- Well-formedness of a raw AJV error, a fact of the external engine: the
`missingProperty` parameter is present exactly on "required property
missing" errors, and names a (non-empty) property. -/
def EngineWF (e : ErrorObject) : Prop :=
  (e.keyword = "required" ↔ ∃ p, e.params.missingProperty = some p)
  ∧ ∀ p, e.params.missingProperty = some p → p ≠ ""

/-- A raw AJV error for a missing required `email` property at the root of
the validated value, as in the spec's concrete scenario. -/
def emailErr : ErrorObject :=
  { instancePath := ""
    message := "must have required property email"
    keyword := "required"
    params := { missingProperty := some "email", rest := [] } }

/-- A raw AJV error with a non-empty instance path, as produced for a
pattern failure on a query parameter. -/
def pageErr : ErrorObject :=
  { instancePath := "/page"
    message := "must match pattern"
    keyword := "pattern"
    params := { missingProperty := none, rest := [("pattern", "0-9")] } }

/-- The compiled behaviour of a schema requiring an `email` property on an
object: accepts objects carrying an `email` key, rejects everything else
with `emailErr`. -/
def emailRequired : ValidateFunction := fun x =>
  match x with
  | JValue.obj fields =>
      if fields.any (fun p => p.1 == "email") then { valid := true, errors := [] }
      else { valid := false, errors := [emailErr] }
  | _ => { valid := false, errors := [emailErr] }

/-- A compiled validator that rejects every value, reporting `pageErr`. -/
def rejectAll : ValidateFunction := fun _ => { valid := false, errors := [pageErr] }

/-- A compiled validator that accepts every value. -/
def acceptAll : ValidateFunction := fun _ => { valid := true, errors := [] }

/-- A gate whose body validator demands an `email` key and whose query
validator rejects everything; no headers validator. -/
def sampleGate : Gate :=
  { validateBody := some emailRequired
    validateQuery := some rejectAll
    validateHeaders := none
    bodySchema := some (JValue.obj [("type", JValue.str "object")])
    querySchema := some (JValue.obj [("type", JValue.str "object")])
    headersSchema := none }

/-- A gate on which every configured validator accepts. -/
def passGate : Gate :=
  { validateBody := some emailRequired
    validateQuery := some acceptAll
    validateHeaders := some acceptAll
    bodySchema := some (JValue.obj [("type", JValue.str "object")])
    querySchema := some (JValue.obj [])
    headersSchema := some (JValue.obj []) }

/-- A request whose body lacks the `email` key. -/
def sampleReq : Request Nat :=
  { body := JValue.obj [("name", JValue.str "Al")]
    query := JValue.obj []
    headers := JValue.obj []
    rest := 0 }

/-- The same body, query and headers as `sampleReq` but different `rest`
fields of a different type. -/
def sampleReqOther : Request String :=
  { body := JValue.obj [("name", JValue.str "Al")]
    query := JValue.obj []
    headers := JValue.obj []
    rest := "different method, url, params, cookies" }

/-- A request whose body carries the `email` key. -/
def goodReq : Request Nat :=
  { body := JValue.obj [("email", JValue.str "a@b.com"), ("name", JValue.str "Al")]
    query := JValue.obj []
    headers := JValue.obj []
    rest := 0 }

/-- Fresh `validate.errors` slots (all unset). -/
def emptySlots : ErrSlots := { bodyErrors := [], queryErrors := [], headersErrors := [] }

/-- Unfolds the factory's sequential compilation: the first compilation
error aborts the call, otherwise the gate packages the three results and
the original schemas. -/
theorem createMiddleware_unfold (c : Schema → Except String ValidateFunction)
    (s : ValidationSchemas) :
    createMiddleware c s =
      match compilePart c s.bodySchema with
      | Except.error e => Except.error e
      | Except.ok vb =>
        match compilePart c s.querySchema with
        | Except.error e => Except.error e
        | Except.ok vq =>
          match compilePart c s.headersSchema with
          | Except.error e => Except.error e
          | Except.ok vh =>
              Except.ok ⟨vb, vq, vh, s.bodySchema, s.querySchema, s.headersSchema⟩ := by
  unfold createMiddleware
  simp only [bind, Except.bind]
  cases compilePart c s.bodySchema with
  | error e => rfl
  | ok vb =>
    cases compilePart c s.querySchema with
    | error e => rfl
    | ok vq =>
      cases compilePart c s.headersSchema with
      | error e => rfl
      | ok vh => rfl

/-- Inverts a successful factory call: each validator slot is the result of
compiling the corresponding schema option, and the original schemas are
stored unchanged. -/
theorem createMiddleware_ok_inv (c : Schema → Except String ValidateFunction)
    (s : ValidationSchemas) (g : Gate) (h : createMiddleware c s = Except.ok g) :
    compilePart c s.bodySchema = Except.ok g.validateBody
    ∧ compilePart c s.querySchema = Except.ok g.validateQuery
    ∧ compilePart c s.headersSchema = Except.ok g.validateHeaders
    ∧ g.bodySchema = s.bodySchema ∧ g.querySchema = s.querySchema
    ∧ g.headersSchema = s.headersSchema := by
  rw [createMiddleware_unfold] at h
  cases hb : compilePart c s.bodySchema with
  | error e => rw [hb] at h; exact absurd h (by simp)
  | ok vb =>
    rw [hb] at h
    cases hq : compilePart c s.querySchema with
    | error e => rw [hq] at h; exact absurd h (by simp)
    | ok vq =>
      rw [hq] at h
      cases hh : compilePart c s.headersSchema with
      | error e => rw [hh] at h; exact absurd h (by simp)
      | ok vh =>
        rw [hh] at h
        simp only [Except.ok.injEq] at h
        subst h
        exact ⟨rfl, rfl, rfl, rfl, rfl, rfl⟩

/-- Claim C1: the parts are checked in the fixed order body, query, headers.
For a request violating both the body and the query validator, the handler
emits exactly one 400 response carrying the body-stage message and the
body-stage findings; `next()` is never called; and the output is unchanged
under replacing the query and headers validators by anything at all, so
neither is ever evaluated. -/
theorem C1_fixed_order_body_first {α : Type} (g : Gate) (req : Request α)
    (s : ErrSlots) (vb vq : ValidateFunction)
    (hgb : g.validateBody = some vb) (hgq : g.validateQuery = some vq)
    (hbf : (vb req.body).valid = false) (hqf : (vq req.query).valid = false) :
    (handleS g req s).1 = (req, [Effect.respond 400
        (failPayload "Request body validation failed" g.bodySchema (vb req.body).errors)])
    ∧ Effect.callNext ∉ ((handleS g req s).1).2
    ∧ ∀ (vq2 vh2 : Option ValidateFunction),
        handleS { g with validateQuery := vq2, validateHeaders := vh2 } req s
          = handleS g req s := by
  refine ⟨?_, ?_, ?_⟩ <;> simp [handleS, hgb, hbf]

/-- Witness for C1: a concrete gate whose body validator rejects the
request's body (missing `email`) and whose query validator rejects every
value; the response is the body-stage 400 and `next()` is not called. -/
theorem C1_fixed_order_body_first_witness :
    (handleS sampleGate sampleReq emptySlots).1 = (sampleReq, [Effect.respond 400
        (failPayload "Request body validation failed" sampleGate.bodySchema
          (emailRequired sampleReq.body).errors)])
    ∧ Effect.callNext ∉ ((handleS sampleGate sampleReq emptySlots).1).2 := by
  have h := C1_fixed_order_body_first sampleGate sampleReq emptySlots
    emailRequired rejectAll rfl rfl (by decide) (by decide)
  exact ⟨h.1, h.2.1⟩

/-- Claim C2: for a well-formed engine error (AJV sets `missingProperty`
exactly on "required property missing" errors, and it names a non-empty
property), the emitted finding's `field` is the instance path when that is
non-empty; otherwise the missing property's name exactly when the rule is
`required`; otherwise the literal `"root"`. -/
theorem C2_field_mapping (e : ErrorObject) (hwf : EngineWF e) :
    (e.instancePath ≠ "" → (detailOf e).field = e.instancePath)
    ∧ (e.instancePath = "" → ∀ p, e.params.missingProperty = some p →
        e.keyword = "required" ∧ (detailOf e).field = p)
    ∧ (e.instancePath = "" → e.keyword ≠ "required" → (detailOf e).field = "root") := by
  obtain ⟨hiff, hne⟩ := hwf
  refine ⟨?_, ?_, ?_⟩
  · intro h; simp [detailOf, fieldOf, h]
  · intro h p hp
    refine ⟨hiff.mpr ⟨p, hp⟩, ?_⟩
    simp [detailOf, fieldOf, h, hp, hne p hp]
  · intro h hk
    have hnone : e.params.missingProperty = none := by
      cases hmp : e.params.missingProperty with
      | none => rfl
      | some p => exact absurd (hiff.mpr ⟨p, hmp⟩) hk
    simp [detailOf, fieldOf, h, hnone]

/-- Witness for C2: the root-level `required` error for a missing `email`
yields the finding field `"email"`, not `"root"`. -/
theorem C2_field_mapping_witness :
    emailErr.instancePath = "" ∧ (detailOf emailErr).field = "email" := by
  have hwf : EngineWF emailErr :=
    ⟨by simp [emailErr], by intro p hp; simp [emailErr] at hp; subst hp; decide⟩
  exact ⟨rfl, ((C2_field_mapping emailErr hwf).2.1 rfl "email" rfl).2⟩

/-- Claim C3: whenever the first failing configured part is the body, the
query or the headers, the handler (a total function: no exception) emits
exactly one response, with status 400, the part's fixed message, the
schema stored at factory time echoed, and one `{field, message, keyword,
params}` finding per engine error in the engine's order; and a gate built
by a successful factory call stores the originally supplied schemas
verbatim. -/
theorem C3_failure_response_shape {α : Type} (g : Gate) (req : Request α) (s : ErrSlots) :
    (∀ vb, g.validateBody = some vb → (vb req.body).valid = false →
        ((handleS g req s).1).2 = [Effect.respond 400
          { error := "Request body validation failed", schema := g.bodySchema,
            details := ((vb req.body).errors).map detailOf }])
    ∧ (∀ vq, partPasses g.validateBody req.body →
        g.validateQuery = some vq → (vq req.query).valid = false →
        ((handleS g req s).1).2 = [Effect.respond 400
          { error := "Query parameters validation failed", schema := g.querySchema,
            details := ((vq req.query).errors).map detailOf }])
    ∧ (∀ vh, partPasses g.validateBody req.body → partPasses g.validateQuery req.query →
        g.validateHeaders = some vh → (vh req.headers).valid = false →
        ((handleS g req s).1).2 = [Effect.respond 400
          { error := "Headers validation failed", schema := g.headersSchema,
            details := ((vh req.headers).errors).map detailOf }])
    ∧ (∀ c cfg, createMiddleware c cfg = Except.ok g →
        g.bodySchema = cfg.bodySchema ∧ g.querySchema = cfg.querySchema
          ∧ g.headersSchema = cfg.headersSchema) := by
  refine ⟨?_, ?_, ?_, ?_⟩
  · intro vb hgb hf
    simp [handleS, hgb, hf, failPayload]
  · intro vq hpass hgq hf
    cases hgb : g.validateBody with
    | none => simp [handleS, hgb, queryStage, hgq, hf, failPayload]
    | some vb =>
      have hv := hpass vb hgb
      simp [handleS, hgb, hv, queryStage, hgq, hf, failPayload]
  · intro vh hpassb hpassq hgh hf
    cases hgb : g.validateBody with
    | none =>
      cases hgq : g.validateQuery with
      | none => simp [handleS, hgb, queryStage, hgq, headersStage, hgh, hf, failPayload]
      | some vq =>
        have hv := hpassq vq hgq
        simp [handleS, hgb, queryStage, hgq, hv, headersStage, hgh, hf, failPayload]
    | some vb =>
      have hvb := hpassb vb hgb
      cases hgq : g.validateQuery with
      | none => simp [handleS, hgb, hvb, queryStage, hgq, headersStage, hgh, hf, failPayload]
      | some vq =>
        have hv := hpassq vq hgq
        simp [handleS, hgb, hvb, queryStage, hgq, hv, headersStage, hgh, hf, failPayload]
  · intro c cfg h
    obtain ⟨-, -, -, h4, h5, h6⟩ := createMiddleware_ok_inv c cfg g h
    exact ⟨h4, h5, h6⟩

/-- Witness for C3: the body-stage failure on a concrete gate produces the
single 400 response with the fixed message, the stored schema and the
mapped findings. -/
theorem C3_failure_response_shape_witness :
    ((handleS sampleGate sampleReq emptySlots).1).2 = [Effect.respond 400
      { error := "Request body validation failed", schema := sampleGate.bodySchema,
        details := ((emailRequired sampleReq.body).errors).map detailOf }] :=
  (C3_failure_response_shape sampleGate sampleReq emptySlots).1 emailRequired rfl (by decide)

/-- Claim C4: when every configured validator accepts its part, the handler
emits no 400, calls `next()`, and hands the request on unmodified. -/
theorem C4_all_pass_calls_next {α : Type} (g : Gate) (req : Request α) (s : ErrSlots)
    (hb : partPasses g.validateBody req.body)
    (hq : partPasses g.validateQuery req.query)
    (hh : partPasses g.validateHeaders req.headers) :
    (handleS g req s).1 = (req, [Effect.callNext]) := by
  rcases g with ⟨vb, vq, vh, sb, sq, sh⟩
  cases vb <;> cases vq <;> cases vh <;>
    simp only [handleS, queryStage, headersStage] <;>
    (repeat' split) <;> simp_all [partPasses]

/-- Witness for C4: a request satisfying all three configured validators
reaches `next()` untouched. -/
theorem C4_all_pass_calls_next_witness :
    (handleS passGate goodReq emptySlots).1 = (goodReq, [Effect.callNext]) := by
  refine C4_all_pass_calls_next passGate goodReq emptySlots ?_ ?_ ?_ <;>
    (intro v hv; injection hv with h; subst h; decide)

/-- Claim C5: with no schemas supplied, every request reaches the
downstream handler unchanged: the factory succeeds, the handler calls
`next()` exactly once, writes no response, leaves the request object (all
fields, the `rest` ones included) untouched, and even the validator error
slots are untouched. -/
theorem C5_no_schemas_passthrough {α : Type}
    (c : Schema → Except String ValidateFunction) (req : Request α) (s : ErrSlots) :
    ∃ g, createMiddleware c ⟨none, none, none⟩ = Except.ok g
      ∧ (handleS g req s).1 = (req, [Effect.callNext])
      ∧ (handleS g req s).2 = s :=
  ⟨⟨none, none, none, none, none, none⟩, rfl, rfl, rfl⟩

/-- Claim C6: validating the same request twice through the same gate is
idempotent: a second run started from the `validate.errors` slots left by
the first run returns the identical request, the identical effects (same
pass/fail decision and identical `details`), and the identical slots. -/
theorem C6_idempotent_validation {α : Type} (g : Gate) (req : Request α) (s : ErrSlots) :
    handleS g req (handleS g req s).2 = handleS g req s := by
  rcases g with ⟨vb, vq, vh, sb, sq, sh⟩
  cases vb <;> cases vq <;> cases vh <;>
    simp only [handleS, queryStage, headersStage] <;>
    repeat' first | rfl | (split <;> simp_all)

/-- Counterexample for C7: a supplied schema that is falsy as a JavaScript
value (here the boolean schema `false`, a legal AJV schema) is never
compiled: with a compiler that rejects every schema, the factory still
succeeds — and returns a gate with no body validator at all. -/
theorem C7_counterexample_falsy_schema_skipped :
    createMiddleware (fun _ => Except.error "schema compilation failure")
      ⟨some (JValue.bool false), none, none⟩
      = Except.ok ⟨none, none, none, some (JValue.bool false), none, none⟩ := rfl

/-- Claim C7 (amended): every supplied schema that is truthy as a
JavaScript value is compiled eagerly during the factory call, in the order
body, query, headers, so that a malformed truthy schema makes the factory
call itself fail with the compilation error before any request is handled,
and on success the gate holds exactly the compiled validators; a supplied
falsy schema (such as the boolean schema `false`) is skipped and its
validator slot is `none`. -/
theorem C7_eager_compilation_amended (c : Schema → Except String ValidateFunction)
    (s : ValidationSchemas) :
    (∀ sch e, s.bodySchema = some sch → jsTruthy sch = true → c sch = Except.error e →
        createMiddleware c s = Except.error e)
    ∧ (∀ vb sch e, compilePart c s.bodySchema = Except.ok vb →
        s.querySchema = some sch → jsTruthy sch = true → c sch = Except.error e →
        createMiddleware c s = Except.error e)
    ∧ (∀ vb vq sch e, compilePart c s.bodySchema = Except.ok vb →
        compilePart c s.querySchema = Except.ok vq →
        s.headersSchema = some sch → jsTruthy sch = true → c sch = Except.error e →
        createMiddleware c s = Except.error e)
    ∧ (∀ sch vb g, s.bodySchema = some sch → jsTruthy sch = true → c sch = Except.ok vb →
        createMiddleware c s = Except.ok g → g.validateBody = some vb)
    ∧ (∀ sch g, s.bodySchema = some sch → jsTruthy sch = false →
        createMiddleware c s = Except.ok g → g.validateBody = none)
    ∧ (∀ vb vq vh, compilePart c s.bodySchema = Except.ok vb →
        compilePart c s.querySchema = Except.ok vq →
        compilePart c s.headersSchema = Except.ok vh →
        createMiddleware c s = Except.ok
          ⟨vb, vq, vh, s.bodySchema, s.querySchema, s.headersSchema⟩) := by
  refine ⟨?_, ?_, ?_, ?_, ?_, ?_⟩
  · intro sch e h1 h2 h3
    have hb : compilePart c s.bodySchema = Except.error e := by
      simp [compilePart, h1, h2, h3, Except.map]
    rw [createMiddleware_unfold, hb]
  · intro vb sch e h0 h1 h2 h3
    have hq : compilePart c s.querySchema = Except.error e := by
      simp [compilePart, h1, h2, h3, Except.map]
    rw [createMiddleware_unfold, h0, hq]
  · intro vb vq sch e h0 h0q h1 h2 h3
    have hh : compilePart c s.headersSchema = Except.error e := by
      simp [compilePart, h1, h2, h3, Except.map]
    rw [createMiddleware_unfold, h0, h0q, hh]
  · intro sch vb g h1 h2 h3 h4
    have hb : compilePart c s.bodySchema = Except.ok (some vb) := by
      simp [compilePart, h1, h2, h3, Except.map]
    have hinv := (createMiddleware_ok_inv c s g h4).1
    rw [hb] at hinv
    simp only [Except.ok.injEq] at hinv
    exact hinv.symm
  · intro sch g h1 h2 h3
    have hb : compilePart c s.bodySchema = Except.ok none := by
      simp [compilePart, h1, h2]
    have hinv := (createMiddleware_ok_inv c s g h3).1
    rw [hb] at hinv
    simp only [Except.ok.injEq] at hinv
    exact hinv.symm
  · intro vb vq vh h1 h2 h3
    rw [createMiddleware_unfold, h1, h2, h3]

/-- Witness for C7 (amended): a truthy object schema handed to a compiler
that rejects it makes the factory call fail with that compilation error. -/
theorem C7_eager_compilation_amended_witness :
    createMiddleware (fun _ => Except.error "bad schema")
      ⟨some (JValue.obj [("type", JValue.str "object")]), none, none⟩
      = Except.error "bad schema" :=
  (C7_eager_compilation_amended (fun _ => Except.error "bad schema")
      ⟨some (JValue.obj [("type", JValue.str "object")]), none, none⟩).1
    (JValue.obj [("type", JValue.str "object")]) "bad schema" rfl rfl rfl

/-- Claim C8: on every request the handler performs exactly one of two
outcomes — a single 400 response, or a single `next()` call — never both,
never neither, never more than one response. -/
theorem C8_exactly_one_outcome {α : Type} (g : Gate) (req : Request α) (s : ErrSlots) :
    (∃ p, ((handleS g req s).1).2 = [Effect.respond 400 p]) ∨
      ((handleS g req s).1).2 = [Effect.callNext] := by
  rcases g with ⟨vb, vq, vh, sb, sq, sh⟩
  cases vb <;> cases vq <;> cases vh <;>
    simp only [handleS, queryStage, headersStage] <;>
    (repeat' split)
  all_goals (first | exact Or.inl ⟨_, rfl⟩ | simp)

/-- Claim C9: the handler's outcome depends only on `req.body`, `req.query`
and `req.headers`: two requests agreeing on those three parts — even with
`rest` fields of different types — produce identical effects (decision and
payload) and identical final error slots. -/
theorem C9_depends_only_on_validated_parts {α β : Type} (g : Gate)
    (req1 : Request α) (req2 : Request β) (s : ErrSlots)
    (hb : req1.body = req2.body) (hq : req1.query = req2.query)
    (hh : req1.headers = req2.headers) :
    ((handleS g req1 s).1).2 = ((handleS g req2 s).1).2 ∧
      (handleS g req1 s).2 = (handleS g req2 s).2 := by
  rcases g with ⟨vb, vq, vh, sb, sq, sh⟩
  cases vb <;> cases vq <;> cases vh <;>
    simp only [handleS, queryStage, headersStage, hb, hq, hh] <;>
    (repeat' split) <;> simp_all

/-- Witness for C9: two requests with equal body, query and headers but
`rest` fields of different types get the same decision and slots. -/
theorem C9_depends_only_on_validated_parts_witness :
    ((handleS sampleGate sampleReq emptySlots).1).2
        = ((handleS sampleGate sampleReqOther emptySlots).1).2
      ∧ (handleS sampleGate sampleReq emptySlots).2
        = (handleS sampleGate sampleReqOther emptySlots).2 :=
  C9_depends_only_on_validated_parts sampleGate sampleReq sampleReqOther emptySlots rfl rfl rfl

/-- Claim C10: no branch of the handler mutates the request: the request
component of the result is the incoming request, also when a 400 is
produced. -/
theorem C10_request_never_mutated {α : Type} (g : Gate) (req : Request α) (s : ErrSlots) :
    ((handleS g req s).1).1 = req := by
  rcases g with ⟨vb, vq, vh, sb, sq, sh⟩
  cases vb <;> cases vq <;> cases vh <;>
    simp only [handleS, queryStage, headersStage] <;>
    repeat' first | rfl | (split <;> simp_all)
